import Mathlib

/-!
Verification of the task/plan status-synchronization engine of the
hackathon-alfa repository (src/app/api/v1/endpoints/task.py), as a shallow
embedding in Lean 4.

Dates are modelled as natural numbers (day ordinals); the injectable clock
of the spec becomes an explicit `today : Nat` argument.  The durable store
is a `State` record of entity lists; each endpoint of task.py becomes a
function `State → ... → Except Err α × State` returning the response (or
the typed failure) together with the final store state.  A Python
exception raised by a validator aborts the handler, so the state component
on the error path is the state at the moment of the raise.

Two places of task.py silently do nothing at run time, and the embedding
reproduces that behaviour faithfully:
* `create_task` (task.py line 106) calls `plan_crud.update(...)` without
  `await`: the coroutine object is created and discarded, its body never
  runs, so the DONE plan is in fact not demoted;
* `update_task` (task.py line 144) guards the cascade with
  `tasks_not_done.count(lambda x: ...)`.  Python's `list.count(v)` counts
  elements equal to `v`; no Task row equals a freshly created lambda
  object, so the count is the constant 0 and the guard is always false —
  and the `plan_crud.update` under it (line 145) is unawaited as well.
  Net effect: `update_task` never writes the plan's status.

The validators (api.v1.validators), the schemas and the crud layer are not
part of the provided sources; they are modelled from the spec where the
claims need them, and each such definition says so in its doc comment.
-/

namespace Alfa

/-- Task status, from schemas.task.TaskStatus (spec section 3: CREATED,
IN_PROGRESS, DONE). -/
inductive TaskStatus where
  | created
  | in_progress
  | done
  deriving DecidableEq, Repr

/-- Plan status, from schemas.plan.PlanStatus (spec section 3). -/
inductive PlanStatus where
  | created
  | in_progress
  | done
  deriving DecidableEq, Repr

/-- Typed failures of the core (spec section 7). `StoreFailure` is not
modelled: the store model below is total. -/
inductive Err where
  | notFound
  | forbidden
  | invalidDate
  deriving DecidableEq, Repr

/-- User role. Modelled from the spec: mutation operations require an
elevated role (spec sections 3 and 4.1); the elevated role is the
supervisor role. -/
inductive Role where
  | supervisor
  | employee
  deriving DecidableEq, Repr

/-- User record, as produced by the identity resolver (spec section 6):
id, role, optional supervisor reference. -/
structure User where
  id : Nat
  role : Role
  supervisor_id : Option Nat
  deriving DecidableEq, Repr

/-- Plan row (spec section 3): id, owner/subject reference, status,
optional expiry date. -/
structure Plan where
  id : Nat
  employee_id : Nat
  status : PlanStatus
  expires_at : Option Nat
  deriving DecidableEq, Repr

/-- Task row (spec section 3): id, parent plan reference, status, optional
expiry date. -/
structure Task where
  id : Nat
  plan_id : Nat
  status : TaskStatus
  expires_at : Option Nat
  deriving DecidableEq, Repr

/-- Comment row (spec section 3): parent task reference, author reference,
creation day (the audit text "Задача создана D" of task.py line 100 is
modelled by recording the day D). -/
structure Comment where
  id : Nat
  task_id : Nat
  author_id : Nat
  day : Nat
  deriving DecidableEq, Repr

/-- TaskCreate payload (schemas.task.TaskCreate, not in the sources):
the fields of it the core logic reads are the optional expiry; the new
row's status is CREATED (spec rule 2: new Task starts CREATED). -/
structure TaskCreate where
  expires_at : Option Nat
  deriving DecidableEq, Repr

/-- TaskUpdate patch (schemas.task.TaskUpdate, not in the sources): the
fields the core logic reads, each optional; `model_dump(exclude_unset=True)`
applies exactly the set ones. -/
structure TaskUpdate where
  status : Option TaskStatus
  expires_at : Option Nat
  deriving DecidableEq, Repr

/-- The durable store: all state lives here (spec section 5). `next_id`
supplies fresh primary keys for created rows. -/
structure State where
  plans : List Plan
  tasks : List Task
  comments : List Comment
  users : List User
  next_id : Nat
  deriving DecidableEq, Repr

/-- Supervisor reference of a user id, looked up in the user store. -/
def supervisorOf (users : List User) (uid : Nat) : Option Nat :=
  match users.find? (fun u => u.id == uid) with
  | some u => u.supervisor_id
  | none => none

/-- Modelled from the spec: membership of `uid` in the supervisory chain
above `subject` (spec section 4.1, "owner or supervisory chain"); the
fuel bounds the chain walk by the size of the user store. -/
def inSupervisorChain (users : List User) : Nat → Nat → Nat → Bool
  | 0, _, _ => false
  | fuel + 1, uid, subject =>
    match supervisorOf users subject with
    | none => false
    | some s => s == uid || inSupervisorChain users fuel uid s

/-- Modelled from the spec: `checkPlanAccess` of api.v1.validators (spec
section 4.1) — look the plan up (NotFound if absent), succeed when the
requesting user is the owning subject or in its supervisory chain,
Forbidden otherwise.  Read-only. -/
def check_plan_and_user_access (s : State) (planId userId : Nat) :
    Except Err Plan :=
  match s.plans.find? (fun p => p.id == planId) with
  | none => .error .notFound
  | some plan =>
    if userId == plan.employee_id
        || inSupervisorChain s.users s.users.length userId plan.employee_id
    then .ok plan
    else .error .forbidden

/-- Modelled from the spec: `checkTaskAccess` of api.v1.validators (spec
section 4.1) — look the task up (NotFound if absent), then check access to
its plan the same way `checkPlanAccess` does.  Read-only. -/
def check_task_and_user_access (s : State) (taskId userId : Nat) :
    Except Err Task :=
  match s.tasks.find? (fun t => t.id == taskId) with
  | none => .error .notFound
  | some task =>
    match check_plan_and_user_access s task.plan_id userId with
    | .error e => .error e
    | .ok _ => .ok task

/-- Modelled from the spec: `checkRole` of api.v1.validators (spec section
4.1) — pure predicate, fails Forbidden unless the role permits mutation. -/
def check_role (user : User) : Except Err Unit :=
  if user.role == Role.supervisor then .ok () else .error .forbidden

/-- Modelled from the spec: `checkPlanTasksExpiry` of api.v1.validators
(spec section 4.2) — fails InvalidDate if the candidate expiry is not
strictly after the current date, or, when the plan has an expiry, exceeds
it. -/
def check_plan_tasks_expired_date (plan : Plan) (candidate today : Nat) :
    Except Err Unit :=
  if candidate ≤ today then .error .invalidDate
  else
    match plan.expires_at with
    | some planExp => if planExp < candidate then .error .invalidDate else .ok ()
    | none => .ok ()

/-- Modelled from the spec: `checkNewDateAfterCurrent` of api.v1.validators
(spec section 4.2) — fails InvalidDate if the candidate expiry is not
strictly after the task's current expiry.  The spec does not say what
happens when the task has no expiry; the model accepts then. -/
def check_new_date_gt_current (task : Task) (candidate : Nat) :
    Except Err Unit :=
  match task.expires_at with
  | some cur => if cur < candidate then .ok () else .error .invalidDate
  | none => .ok ()

/-- Store operation `task_crud.update(session, {"id": taskId}, fields)`
(spec section 6): rewrite every task row matching the filter with `f`, and
return the first updated row (callers take the first). -/
def task_crud_update (s : State) (taskId : Nat) (f : Task → Task) :
    State × Option Task :=
  ({ s with tasks := s.tasks.map (fun t => if t.id == taskId then f t else t) },
   (s.tasks.find? (fun t => t.id == taskId)).map f)

/-- Store operation `plan_crud.update(session, {"id": planId},
{"status": st})` (spec section 6), result row unused by the handlers. -/
def plan_crud_update_status (s : State) (planId : Nat) (st : PlanStatus) :
    State :=
  { s with
    plans := s.plans.map
      (fun p => if p.id == planId then { p with status := st } else p) }

/-- Store operation `task_crud.delete(session, {"id": taskId})`
(spec section 6). -/
def task_crud_delete (s : State) (taskId : Nat) : State :=
  { s with tasks := s.tasks.filter (fun t => t.id != taskId) }

/-- Application of a TaskUpdate patch to a row, the effect of
`task_crud.update(..., task_patch.model_dump(exclude_unset=True))`:
exactly the set fields are overwritten. -/
def applyTaskPatch (patch : TaskUpdate) (t : Task) : Task :=
  { t with
    status := patch.status.getD t.status,
    expires_at :=
      match patch.expires_at with
      | some d => some d
      | none => t.expires_at }

/-- Handler GET /tasks/{task_id} (task.py lines 27-49): validate access;
if the task is CREATED and the reading user has a supervisor, set the
task's status to IN_PROGRESS and the parent plan's status to IN_PROGRESS;
return the (possibly updated) task. -/
def get_task (s : State) (taskId : Nat) (user : User) :
    Except Err Task × State :=
  match check_task_and_user_access s taskId user.id with
  | .error e => (.error e, s)
  | .ok task =>
    if task.status == TaskStatus.created && user.supervisor_id.isSome then
      let r := task_crud_update s taskId
        (fun t => { t with status := TaskStatus.in_progress })
      let task2 := r.2.getD { task with status := TaskStatus.in_progress }
      let s2 := plan_crud_update_status r.1 task2.plan_id PlanStatus.in_progress
      (.ok task2, s2)
    else
      (.ok task, s)

/-- Handler POST /plans/{plan_id}/tasks (task.py lines 74-109): validate
plan access, role, and (only when an expiry is supplied) the temporal
invariant; insert the new CREATED task; insert the audit comment; then the
source calls `plan_crud.update` to demote a DONE plan but does not await
it (line 106), so no plan row changes; return the created task. -/
def create_task (s : State) (planId : Nat) (tc : TaskCreate) (user : User)
    (today : Nat) : Except Err Task × State :=
  match check_plan_and_user_access s planId user.id with
  | .error e => (.error e, s)
  | .ok plan =>
    match check_role user with
    | .error e => (.error e, s)
    | .ok _ =>
      let dateCheck : Except Err Unit :=
        match tc.expires_at with
        | some d => check_plan_tasks_expired_date plan d today
        | none => .ok ()
      match dateCheck with
      | .error e => (.error e, s)
      | .ok _ =>
        let task : Task :=
          { id := s.next_id, plan_id := planId,
            status := TaskStatus.created, expires_at := tc.expires_at }
        let comment : Comment :=
          { id := s.next_id + 1, task_id := task.id,
            author_id := user.id, day := today }
        let s2 : State :=
          { s with
            tasks := s.tasks ++ [task],
            comments := s.comments ++ [comment],
            next_id := s.next_id + 2 }
        -- task.py line 105-108: `if plan.status == DONE: plan_crud.update(...)`
        -- is not awaited, so the store is not written; nothing to model.
        (.ok task, s2)

/-- Handler PATCH /tasks/{task_id} (task.py lines 117-148): validate
access, role, and (only when a new expiry is supplied) that it is strictly
later than the current one; persist the patch; when the patch sets status
DONE the source re-fetches the siblings but its guard
`tasks_not_done.count(lambda ...)` is the constant 0 and the
`plan_crud.update` under it is unawaited, so the plan row is never
written; return the first updated task. -/
def update_task (s : State) (taskId : Nat) (patch : TaskUpdate)
    (user : User) : Except Err Task × State :=
  match check_task_and_user_access s taskId user.id with
  | .error e => (.error e, s)
  | .ok task =>
    match check_role user with
    | .error e => (.error e, s)
    | .ok _ =>
      let dateCheck : Except Err Unit :=
        match patch.expires_at with
        | some d => check_new_date_gt_current task d
        | none => .ok ()
      match dateCheck with
      | .error e => (.error e, s)
      | .ok _ =>
        let r := task_crud_update s taskId (applyTaskPatch patch)
        -- task.py lines 138-147: the cascade guard is always false and the
        -- plan update is unawaited; no plan mutation happens.
        (.ok (r.2.getD (applyTaskPatch patch task)), r.1)

/-- Handler DELETE /tasks/{task_id} (task.py lines 156-164): validate
access and role, delete the task, no cascade of any kind. -/
def delete_task (s : State) (taskId : Nat) (user : User) :
    Except Err Unit × State :=
  match check_task_and_user_access s taskId user.id with
  | .error e => (.error e, s)
  | .ok _ =>
    match check_role user with
    | .error e => (.error e, s)
    | .ok _ => (.ok (), task_crud_delete s taskId)

/-- The plan/task consistency invariant of the claims (spec section 8): no
plan is DONE while one of its tasks is not DONE. -/
def planTasksInv (s : State) : Bool :=
  s.plans.all (fun p =>
    p.status != PlanStatus.done
      || s.tasks.all (fun t => t.plan_id != p.id || t.status == TaskStatus.done))

/-- Well-formedness of the store: primary keys of the task table are
unique (guaranteed by the database layer). -/
def uniqueTaskIds (s : State) : Prop :=
  (s.tasks.map Task.id).Nodup

instance (s : State) : Decidable (uniqueTaskIds s) :=
  decidable_of_iff ((s.tasks.map Task.id).Nodup) Iff.rfl

/-! Concrete scenario data used by counterexamples and witnesses. -/

/-- A user with the elevated role and no supervisor (a boss): passes
`check_role` and owns the scenario plans below. -/
def boss : User := { id := 10, role := Role.supervisor, supervisor_id := none }

/-- A subordinate user: same id as the plan owner of the scenarios, with a
supervisor reference set, so supervised reads fire. -/
def sub : User := { id := 10, role := Role.employee, supervisor_id := some 99 }

/-- Store for the Rule-3 scenario: one plan (IN_PROGRESS) owned by user
10, with tasks 1 (DONE) and 2 (IN_PROGRESS). -/
def S1 : State :=
  { plans := [{ id := 1, employee_id := 10, status := PlanStatus.in_progress,
                expires_at := none }],
    tasks := [{ id := 1, plan_id := 1, status := TaskStatus.done, expires_at := none },
              { id := 2, plan_id := 1, status := TaskStatus.in_progress,
                expires_at := none }],
    comments := [], users := [boss], next_id := 3 }

/-- Store for the Rule-2 scenario: one DONE plan owned by user 10, no
tasks. -/
def S2 : State :=
  { plans := [{ id := 1, employee_id := 10, status := PlanStatus.done,
                expires_at := none }],
    tasks := [], comments := [], users := [boss], next_id := 1 }

/-- Store for the supervised-read scenario: one DONE plan owned by user
10, one CREATED task under it, user store holding the subordinate. -/
def S3 : State :=
  { plans := [{ id := 1, employee_id := 10, status := PlanStatus.done,
                expires_at := none }],
    tasks := [{ id := 1, plan_id := 1, status := TaskStatus.created,
                expires_at := none }],
    comments := [], users := [sub], next_id := 2 }

/-- Store satisfying the plan/task invariant: one DONE plan whose single
task is DONE. -/
def S4 : State :=
  { plans := [{ id := 1, employee_id := 10, status := PlanStatus.done,
                expires_at := none }],
    tasks := [{ id := 1, plan_id := 1, status := TaskStatus.done,
                expires_at := none }],
    comments := [], users := [boss], next_id := 2 }

/-- Store for the expiry-update scenario: one plan owned by user 10 and
one task with a current expiry of day 10. -/
def S5 : State :=
  { plans := [{ id := 1, employee_id := 10, status := PlanStatus.in_progress,
                expires_at := none }],
    tasks := [{ id := 1, plan_id := 1, status := TaskStatus.in_progress,
                expires_at := some 10 }],
    comments := [], users := [boss], next_id := 2 }

/-- An empty store: every access check fails NotFound on it. -/
def S0 : State :=
  { plans := [], tasks := [], comments := [], users := [], next_id := 1 }

/-! Helper lemmas. -/

/-- Propositional reading of the `planTasksInv` boolean. -/
lemma planTasksInv_iff (s : State) :
    planTasksInv s = true ↔
      ∀ p ∈ s.plans, p.status = PlanStatus.done →
        ∀ t ∈ s.tasks, t.plan_id = p.id → t.status = TaskStatus.done := by
  simp only [planTasksInv, List.all_eq_true, Bool.or_eq_true, bne_iff_ne,
    beq_iff_eq, ne_eq]
  constructor
  · intro h p hp hdone t ht hpid
    rcases h p hp with h1 | h2
    · exact absurd hdone h1
    · rcases h2 t ht with h3 | h4
      · exact absurd hpid h3
      · exact h4
  · intro h p hp
    by_cases hdone : p.status = PlanStatus.done
    · refine Or.inr (fun t ht => ?_)
      by_cases hpid : t.plan_id = p.id
      · exact Or.inr (h p hp hdone t ht hpid)
      · exact Or.inl hpid
    · exact Or.inl hdone

/-- A successful task access check is exactly a successful lookup of the
task by id. -/
lemma check_task_access_find {s : State} {tid uid : Nat} {task : Task}
    (h : check_task_and_user_access s tid uid = Except.ok task) :
    s.tasks.find? (fun t => t.id == tid) = some task := by
  unfold check_task_and_user_access at h
  split at h
  · exact Except.noConfusion h
  · rename_i t0 hf
    split at h
    · exact Except.noConfusion h
    · cases h
      exact hf

/-- The task returned by a successful access check is a row of the store
and carries the requested id. -/
lemma check_task_access_mem {s : State} {tid uid : Nat} {task : Task}
    (h : check_task_and_user_access s tid uid = Except.ok task) :
    task ∈ s.tasks ∧ task.id = tid := by
  have hf := check_task_access_find h
  exact ⟨List.mem_of_find?_eq_some hf, by
    have := List.find?_some hf
    simpa using this⟩

/-! Claim theorems. -/

/-- C1: the claim says an update that sets a task to DONE marks the plan
DONE once no sibling remains not DONE.  The code never does: in the store
S1 (tasks 1 DONE and 2 IN_PROGRESS under plan 1), updating task 2 to DONE
leaves every task DONE yet the plan still IN_PROGRESS — the guard
`tasks_not_done.count(lambda ...)` of task.py line 144 is constantly 0 and
the `plan_crud.update` of line 145 is unawaited. -/
theorem update_to_done_never_marks_plan_done :
    (update_task S1 2 { status := some TaskStatus.done, expires_at := none }
        boss).2.tasks =
      [{ id := 1, plan_id := 1, status := TaskStatus.done, expires_at := none },
       { id := 2, plan_id := 1, status := TaskStatus.done, expires_at := none }] ∧
    (update_task S1 2 { status := some TaskStatus.done, expires_at := none }
        boss).2.plans =
      [{ id := 1, employee_id := 10, status := PlanStatus.in_progress,
         expires_at := none }] := by
  decide

/-- C2: the claim says creating a task under a DONE plan demotes the plan
to IN_PROGRESS.  The new task does start CREATED, but in the store S2
(plan 1 DONE, no tasks) the plan stays DONE after the creation: the
demoting `plan_crud.update` of task.py line 106 is called without `await`
and never runs. -/
theorem create_under_done_plan_keeps_plan_done :
    (create_task S2 1 { expires_at := none } boss 5).1 =
      Except.ok { id := 1, plan_id := 1, status := TaskStatus.created,
                  expires_at := none } ∧
    (create_task S2 1 { expires_at := none } boss 5).2.plans =
      [{ id := 1, employee_id := 10, status := PlanStatus.done,
         expires_at := none }] := by
  exact ⟨rfl, rfl⟩

/-- C3: on a get of a CREATED task by a user with a supervisor, the task's
status becomes IN_PROGRESS, the parent plan's status becomes IN_PROGRESS,
and the returned task carries the new status (task.py lines 38-49). -/
theorem get_task_supervised_created_cascades
    {s : State} {tid : Nat} {user : User} {task : Task} {sid : Nat}
    (h1 : check_task_and_user_access s tid user.id = Except.ok task)
    (h2 : task.status = TaskStatus.created)
    (h3 : user.supervisor_id = some sid) :
    (get_task s tid user).1 =
        Except.ok { task with status := TaskStatus.in_progress } ∧
    (∀ t ∈ (get_task s tid user).2.tasks, t.id = tid →
        t.status = TaskStatus.in_progress) ∧
    (∀ p ∈ (get_task s tid user).2.plans, p.id = task.plan_id →
        p.status = PlanStatus.in_progress) := by
  have hf := check_task_access_find h1
  simp only [get_task, h1, h2, h3, task_crud_update, hf, plan_crud_update_status,
    Option.map_some', Option.getD_some, Option.isSome_some, beq_self_eq_true,
    Bool.and_self, if_true]
  refine ⟨trivial, ?_, ?_⟩
  · intro t ht hid
    simp only [List.mem_map] at ht
    obtain ⟨t0, ht0, rfl⟩ := ht
    by_cases hc : (t0.id == tid) = true
    · simp [hc]
    · rw [if_neg hc] at hid ⊢
      exact absurd (by simpa using hid) (by simpa using hc)
  · intro p hp hid
    simp only [List.mem_map] at hp
    obtain ⟨q, hq, rfl⟩ := hp
    by_cases hc : (q.id == task.plan_id) = true
    · simp [hc]
    · rw [if_neg hc] at hid ⊢
      exact absurd (by simpa using hid) (by simpa using hc)

/-- C3 witness: in the store S3, the subordinate reads the CREATED task 1
and gets it back IN_PROGRESS. -/
theorem get_task_supervised_created_cascades_witness :
    check_task_and_user_access S3 1 sub.id =
      Except.ok { id := 1, plan_id := 1, status := TaskStatus.created,
                  expires_at := none } ∧
    (get_task S3 1 sub).1 =
      Except.ok { id := 1, plan_id := 1, status := TaskStatus.in_progress,
                  expires_at := none } :=
  ⟨rfl,
   (@get_task_supervised_created_cascades S3 1 sub
     { id := 1, plan_id := 1, status := TaskStatus.created, expires_at := none }
     99 rfl rfl rfl).1⟩

/-- C4 counterexample: the store S4 (plan 1 DONE, its only task DONE)
satisfies the invariant, yet one update patching the task back to
IN_PROGRESS leaves the plan DONE with a non-DONE child. -/
theorem plan_done_invariant_violated_by_update :
    planTasksInv S4 = true ∧
    planTasksInv (update_task S4 1
      { status := some TaskStatus.in_progress, expires_at := none } boss).2
      = false := by
  exact ⟨rfl, rfl⟩

/-- C4 amended: the invariant that no plan is DONE while a child task is
not DONE is preserved by the get-task and delete-task operations (on
stores with unique task ids); the update-task operation can break it by
patching a task's status away from DONE, and create-task can break it
because its demotion write is unawaited. -/
theorem plan_done_invariant_preserved_by_get_and_delete
    (s : State) (tid : Nat) (user : User)
    (hinv : planTasksInv s = true) (hids : uniqueTaskIds s) :
    planTasksInv (get_task s tid user).2 = true ∧
    planTasksInv (delete_task s tid user).2 = true := by
  constructor
  · cases hv : check_task_and_user_access s tid user.id with
    | error e => simpa [get_task, hv] using hinv
    | ok task =>
      by_cases hguard :
          (task.status == TaskStatus.created && user.supervisor_id.isSome) = true
      · have hf := check_task_access_find hv
        have hmem := check_task_access_mem hv
        rw [planTasksInv_iff] at hinv ⊢
        intro p hp hdone t ht hpid
        simp only [get_task, hv, hguard, task_crud_update, hf,
          plan_crud_update_status, Option.map_some', Option.getD_some,
          if_true, List.mem_map] at hp ht
        obtain ⟨q, hq, hqe⟩ := hp
        obtain ⟨u0, hu0, hue⟩ := ht
        by_cases hcq : (q.id == task.plan_id) = true
        · rw [if_pos hcq] at hqe
          rw [← hqe] at hdone
          exact absurd hdone (by simp)
        · rw [if_neg hcq] at hqe
          subst hqe
          by_cases hcu : (u0.id == tid) = true
          · rw [if_pos hcu] at hue
            have hu0task : u0 = task := by
              refine List.inj_on_of_nodup_map hids hu0 hmem.1 ?_
              rw [hmem.2]
              exact beq_iff_eq.mp hcu
            rw [← hue] at hpid
            rw [hu0task] at hpid
            exact absurd (hpid.symm) (by simpa using hcq)
          · rw [if_neg hcu] at hue
            subst hue
            exact hinv q hq hdone u0 hu0 hpid
      · simpa [get_task, hv, hguard] using hinv
  · cases hv : check_task_and_user_access s tid user.id with
    | error e => simpa [delete_task, hv] using hinv
    | ok task =>
      cases hr : check_role user with
      | error e => simpa [delete_task, hv, hr] using hinv
      | ok u =>
        rw [planTasksInv_iff] at hinv ⊢
        intro p hp hdone t ht hpid
        simp only [delete_task, hv, hr, task_crud_delete] at hp ht
        exact hinv p hp hdone t (List.mem_of_mem_filter ht) hpid

/-- C4 amended witness: the invariant-satisfying store S4 stays invariant
through a delete of its task by the boss. -/
theorem plan_done_invariant_preserved_witness :
    planTasksInv S4 = true ∧
    planTasksInv (delete_task S4 1 boss).2 = true :=
  ⟨by decide,
   (plan_done_invariant_preserved_by_get_and_delete S4 1 boss (by decide)
     (by decide)).2⟩

/-- C5: when the supervised-read guard does not hold — the task is not
CREATED, or the user has no supervisor — a get modifies nothing and
returns the task as stored (task.py lines 38-49); in particular a second
read by the same supervised user finds the task already IN_PROGRESS and
is a no-op. -/
theorem get_task_frame_when_guard_fails
    {s : State} {tid : Nat} {user : User} {task : Task}
    (h1 : check_task_and_user_access s tid user.id = Except.ok task)
    (h2 : task.status ≠ TaskStatus.created ∨ user.supervisor_id = none) :
    (get_task s tid user).1 = Except.ok task ∧ (get_task s tid user).2 = s := by
  have hguard :
      (task.status == TaskStatus.created && user.supervisor_id.isSome) = false := by
    rcases h2 with h | h
    · simp [h]
    · simp [h]
  simp [get_task, h1, hguard]

/-- C5 witness: the boss (no supervisor) reads the DONE task of store S4
and the store is unchanged. -/
theorem get_task_frame_when_guard_fails_witness :
    check_task_and_user_access S4 1 boss.id =
      Except.ok { id := 1, plan_id := 1, status := TaskStatus.done,
                  expires_at := none } ∧
    (get_task S4 1 boss).2 = S4 :=
  ⟨rfl,
   (@get_task_frame_when_guard_fails S4 1 boss
     { id := 1, plan_id := 1, status := TaskStatus.done, expires_at := none }
     rfl (Or.inr rfl)).2⟩

/-- C6: in each mutating use case — create, update, delete — a validator
failure aborts the request with the validator's error and the store is
exactly the pre-request store (task.py: the validators run before any
crud write). -/
theorem validator_failure_leaves_state_unchanged
    (s : State) (pid tid : Nat) (tc : TaskCreate) (patch : TaskUpdate)
    (user : User) (today : Nat) (e1 e2 e3 : Err) :
    ((create_task s pid tc user today).1 = Except.error e1 →
      (create_task s pid tc user today).2 = s) ∧
    ((update_task s tid patch user).1 = Except.error e2 →
      (update_task s tid patch user).2 = s) ∧
    ((delete_task s tid user).1 = Except.error e3 →
      (delete_task s tid user).2 = s) := by
  refine ⟨?_, ?_, ?_⟩
  · intro h
    cases hv : check_plan_and_user_access s pid user.id with
    | error e => simp [create_task, hv]
    | ok plan =>
      cases hr : check_role user with
      | error e => simp [create_task, hv, hr]
      | ok u =>
        cases he : tc.expires_at with
        | none => simp [create_task, hv, hr, he] at h
        | some d =>
          cases hd : check_plan_tasks_expired_date plan d today with
          | error e => simp [create_task, hv, hr, he, hd]
          | ok u2 => simp [create_task, hv, hr, he, hd] at h
  · intro h
    cases hv : check_task_and_user_access s tid user.id with
    | error e => simp [update_task, hv]
    | ok task =>
      cases hr : check_role user with
      | error e => simp [update_task, hv, hr]
      | ok u =>
        cases he : patch.expires_at with
        | none => simp [update_task, hv, hr, he] at h
        | some d =>
          cases hd : check_new_date_gt_current task d with
          | error e => simp [update_task, hv, hr, he, hd]
          | ok u2 => simp [update_task, hv, hr, he, hd] at h
  · intro h
    cases hv : check_task_and_user_access s tid user.id with
    | error e => simp [delete_task, hv]
    | ok task =>
      cases hr : check_role user with
      | error e => simp [delete_task, hv, hr]
      | ok u => simp [delete_task, hv, hr] at h

/-- C6 witness: creating under the absent plan 1 of the empty store fails
NotFound and leaves the store untouched. -/
theorem validator_failure_leaves_state_unchanged_witness :
    (create_task S0 1 { expires_at := none } boss 0).1 =
      Except.error Err.notFound ∧
    (create_task S0 1 { expires_at := none } boss 0).2 = S0 :=
  ⟨rfl,
   (validator_failure_leaves_state_unchanged S0 1 1 { expires_at := none }
     { status := none, expires_at := none } boss 0 Err.notFound Err.notFound
     Err.notFound).1 rfl⟩

/-- C7: a create with an expiry fails InvalidDate exactly when the expiry
is not strictly after today or exceeds the plan's own expiry when set;
a create with no expiry skips the temporal validator and succeeds
(task.py lines 85-88 guard the validator call on the payload's expiry). -/
theorem create_task_expiry_validation
    {s : State} {pid : Nat} {user : User} {plan : Plan} (today d : Nat)
    (h1 : check_plan_and_user_access s pid user.id = Except.ok plan)
    (h2 : user.role = Role.supervisor) :
    ((create_task s pid { expires_at := some d } user today).1 =
        Except.error Err.invalidDate ↔
      (d ≤ today ∨ ∃ e, plan.expires_at = some e ∧ e < d)) ∧
    (∃ t, (create_task s pid { expires_at := none } user today).1 =
        Except.ok t) := by
  have hr : check_role user = Except.ok () := by simp [check_role, h2]
  constructor
  · by_cases hle : d ≤ today
    · simp [create_task, h1, hr, check_plan_tasks_expired_date, hle]
    · cases hpe : plan.expires_at with
      | none =>
        simp [create_task, h1, hr, check_plan_tasks_expired_date, hle, hpe]
      | some pe =>
        by_cases hlt : pe < d
        · simp [create_task, h1, hr, check_plan_tasks_expired_date, hle, hpe, hlt]
        · simp [create_task, h1, hr, check_plan_tasks_expired_date, hle, hpe, hlt]
  · refine ⟨{ id := s.next_id, plan_id := pid, status := TaskStatus.created, expires_at := none }, ?_⟩
    simp [create_task, h1, hr]

/-- C7 witness: creating a task under plan 1 of store S2 with expiry day 3
on day 5 fails InvalidDate. -/
theorem create_task_expiry_validation_witness :
    check_plan_and_user_access S2 1 boss.id =
      Except.ok { id := 1, employee_id := 10, status := PlanStatus.done,
                  expires_at := none } ∧
    (create_task S2 1 { expires_at := some 3 } boss 5).1 =
      Except.error Err.invalidDate :=
  ⟨rfl,
   (@create_task_expiry_validation S2 1 boss
     { id := 1, employee_id := 10, status := PlanStatus.done, expires_at := none }
     5 3 rfl rfl).1.mpr (Or.inl (by decide))⟩

/-- C8: an update supplying a new expiry fails InvalidDate exactly when
the new expiry is not strictly after the task's current one, and succeeds
when it is strictly later (task.py lines 128-131). -/
theorem update_task_expiry_validation
    {s : State} {tid : Nat} {user : User} {task : Task} {cur : Nat}
    (st : Option TaskStatus) (d : Nat)
    (h1 : check_task_and_user_access s tid user.id = Except.ok task)
    (h2 : user.role = Role.supervisor)
    (h3 : task.expires_at = some cur) :
    ((update_task s tid { status := st, expires_at := some d } user).1 =
        Except.error Err.invalidDate ↔ d ≤ cur) ∧
    (cur < d → ∃ t, (update_task s tid { status := st, expires_at := some d }
        user).1 = Except.ok t) := by
  have hr : check_role user = Except.ok () := by simp [check_role, h2]
  by_cases hlt : cur < d
  · constructor
    · simp [update_task, h1, hr, check_new_date_gt_current, h3, hlt]
    · intro _
      refine ⟨(task_crud_update s tid (applyTaskPatch { status := st, expires_at := some d })).2.getD (applyTaskPatch { status := st, expires_at := some d } task), ?_⟩
      simp [update_task, h1, hr, check_new_date_gt_current, h3, hlt]
  · constructor
    · simp [update_task, h1, hr, check_new_date_gt_current, h3, hlt]
      omega
    · intro hc
      exact absurd hc hlt

/-- C8 witness: updating the task of store S5 (current expiry day 10) to
the earlier expiry day 7 fails InvalidDate. -/
theorem update_task_expiry_validation_witness :
    check_task_and_user_access S5 1 boss.id =
      Except.ok { id := 1, plan_id := 1, status := TaskStatus.in_progress,
                  expires_at := some 10 } ∧
    (update_task S5 1 { status := none, expires_at := some 7 } boss).1 =
      Except.error Err.invalidDate :=
  ⟨rfl,
   (@update_task_expiry_validation S5 1 boss
     { id := 1, plan_id := 1, status := TaskStatus.in_progress,
       expires_at := some 10 }
     10 none 7 rfl rfl rfl).1.mpr (by decide)⟩

/-- C9: a delete that passes validation removes exactly the addressed task
and nothing else: the plan rows (hence every plan status) and the comment
rows are untouched (task.py lines 156-164 perform no cascade). -/
theorem delete_task_no_plan_cascade
    {s : State} {tid : Nat} {user : User}
    (h : (delete_task s tid user).1 = Except.ok ()) :
    (delete_task s tid user).2.plans = s.plans ∧
    (delete_task s tid user).2.comments = s.comments ∧
    (delete_task s tid user).2.tasks = s.tasks.filter (fun t => t.id != tid) := by
  cases hv : check_task_and_user_access s tid user.id with
  | error e => simp [delete_task, hv] at h
  | ok task =>
    cases hr : check_role user with
    | error e => simp [delete_task, hv, hr] at h
    | ok u => simp [delete_task, hv, hr, task_crud_delete]

/-- C9 witness: deleting the DONE task of the all-DONE store S4 leaves the
plan row (still DONE, not re-marked) unchanged. -/
theorem delete_task_no_plan_cascade_witness :
    (delete_task S4 1 boss).1 = Except.ok () ∧
    (delete_task S4 1 boss).2.plans = S4.plans :=
  ⟨rfl, (@delete_task_no_plan_cascade S4 1 boss rfl).1⟩

/-- C10: a supervised read of a CREATED task overwrites the parent plan's
status to IN_PROGRESS whatever it was before — even a DONE plan is demoted
by the mere read (task.py lines 44-48 write the plan unconditionally once
the guard fires). -/
theorem supervised_read_demotes_done_plan
    {s : State} {tid : Nat} {user : User} {task : Task} {sid : Nat} {plan : Plan}
    (h1 : check_task_and_user_access s tid user.id = Except.ok task)
    (h2 : task.status = TaskStatus.created)
    (h3 : user.supervisor_id = some sid)
    (h4 : plan ∈ s.plans) (h5 : plan.id = task.plan_id)
    (h6 : plan.status = PlanStatus.done) :
    ∀ p ∈ (get_task s tid user).2.plans, p.id = task.plan_id →
      p.status = PlanStatus.in_progress := by
  have hf := check_task_access_find h1
  simp only [get_task, h1, h2, h3, task_crud_update, hf, plan_crud_update_status,
    Option.map_some', Option.getD_some, Option.isSome_some, beq_self_eq_true,
    Bool.and_self, if_true]
  intro p hp hid
  simp only [List.mem_map] at hp
  obtain ⟨q, hq, rfl⟩ := hp
  by_cases hc : (q.id == task.plan_id) = true
  · simp [hc]
  · rw [if_neg hc] at hid ⊢
    exact absurd (by simpa using hid) (by simpa using hc)

/-- C10 witness: in store S3 the plan is DONE and its task CREATED; after
the subordinate's read every plan row with the task's plan id is
IN_PROGRESS. -/
theorem supervised_read_demotes_done_plan_witness :
    (∃ p ∈ S3.plans, p.id = 1 ∧ p.status = PlanStatus.done) ∧
    ∀ p ∈ (get_task S3 1 sub).2.plans, p.id = 1 →
      p.status = PlanStatus.in_progress :=
  ⟨⟨{ id := 1, employee_id := 10, status := PlanStatus.done, expires_at := none },
    by decide, rfl, rfl⟩,
   @supervised_read_demotes_done_plan S3 1 sub
     { id := 1, plan_id := 1, status := TaskStatus.created, expires_at := none }
     99
     { id := 1, employee_id := 10, status := PlanStatus.done, expires_at := none }
     rfl rfl rfl (by decide) rfl rfl⟩

end Alfa
